import Mathlib

/-!
Shallow embedding of the SocialWiz chatbot pipeline from
`src/app/services/chatbot/chatbot_route.py` and
`src/app/services/chatbot/chatbot.py`.

Python strings are modelled as `List Char` where string-algorithm reasoning
is needed (the response normalizer) and as `String` elsewhere.  Behaviour of
Python standard-library pieces the code relies on (`str.strip`, truthiness,
`json.loads`, `in`/`[]` on parsed values) is modelled explicitly below; the
model of `json.loads` covers the JSON fragment with integer numerals (no
float/exponent forms, no `NaN`/`Infinity` constants) and omits source
positions from error messages.
-/

namespace Reteq

/-- Whitespace characters recognised by Python `str.strip` (ASCII fragment). -/
def isPySpace (c : Char) : Bool :=
  c = ' ' || c = '\t' || c = '\n' || c = '\x0d' || c = '\x0b' || c = '\x0c'

/-- Python `str.strip()` on a character list: drop leading and trailing whitespace. -/
def pyStrip (cs : List Char) : List Char :=
  ((cs.dropWhile isPySpace).reverse.dropWhile isPySpace).reverse

/-- Python `str.strip()` on a `String`. -/
def pyStripS (s : String) : String :=
  ⟨pyStrip s.data⟩

/-- Python `str.lower()` (ASCII fragment, which covers every mode string used). -/
def pyLower (s : String) : String :=
  ⟨s.data.map Char.toLower⟩

/-- Truthiness of a Python `Optional[str]`: `None` and `""` are falsy. -/
def pyTruthy : Option String → Bool
  | none => false
  | some s => s ≠ ""

/-- Python `x or d` on an `Optional[str]` value `x`. -/
def pyOr (x : Option String) (d : String) : String :=
  match x with
  | none => d
  | some s => if s = "" then d else s

/-- Python `dict.get(key, default)` over an association list written in the
dict's insertion order. -/
def dictGet (d : List (String × String)) (key default : String) : String :=
  match d.find? (fun kv => kv.1 == key) with
  | some kv => kv.2
  | none => default

/-- Substring test, modelling Python `needle in haystack` for `str` values. -/
def pySubstr (needle : List Char) : List Char → Bool
  | [] => needle.isEmpty
  | c :: rest => needle.isPrefixOf (c :: rest) || pySubstr needle rest

/-- Values produced by Python `json.loads`. -/
inductive Json where
  | null
  | bool (b : Bool)
  | num (n : Int)
  | str (s : List Char)
  | arr (elems : List Json)
  | obj (members : List (List Char × Json))

/-- JSON whitespace skipped between tokens. -/
def skipWs (cs : List Char) : List Char :=
  cs.dropWhile (fun c => c = ' ' || c = '\t' || c = '\n' || c = '\x0d')

/-- Single-character JSON string escapes. -/
def escChar (c : Char) : Option Char :=
  if c = '"' then some '"'
  else if c = '\\' then some '\\'
  else if c = '/' then some '/'
  else if c = 'b' then some '\x08'
  else if c = 'f' then some '\x0c'
  else if c = 'n' then some '\n'
  else if c = 'r' then some '\x0d'
  else if c = 't' then some '\t'
  else none

/-- Value of a hexadecimal digit. -/
def hexVal (c : Char) : Option Nat :=
  if '0' ≤ c ∧ c ≤ '9' then some (c.toNat - 48)
  else if 'a' ≤ c ∧ c ≤ 'f' then some (c.toNat - 97 + 10)
  else if 'A' ≤ c ∧ c ≤ 'F' then some (c.toNat - 65 + 10)
  else none

/-- Parse the body of a JSON string after the opening quote; returns the
decoded characters and the input remaining after the closing quote. -/
def parseStringRest : List Char → Option (List Char × List Char)
  | [] => none
  | '"' :: rest => some ([], rest)
  | '\\' :: 'u' :: h1 :: h2 :: h3 :: h4 :: rest =>
    match hexVal h1, hexVal h2, hexVal h3, hexVal h4 with
    | some a, some b, some c, some d =>
      match parseStringRest rest with
      | some (s, r) => some (Char.ofNat (((a * 16 + b) * 16 + c) * 16 + d) :: s, r)
      | none => none
    | _, _, _, _ => none
  | ['\\'] => none
  | '\\' :: e :: rest =>
    match escChar e with
    | some c =>
      match parseStringRest rest with
      | some (s, r) => some (c :: s, r)
      | none => none
    | none => none
  | c :: rest =>
    match parseStringRest rest with
    | some (s, r) => some (c :: s, r)
    | none => none

/-- Take a maximal run of decimal digits. -/
def takeDigits : List Char → List Char × List Char
  | [] => ([], [])
  | c :: rest =>
    if '0' ≤ c ∧ c ≤ '9' then
      let (ds, r) := takeDigits rest
      (c :: ds, r)
    else ([], c :: rest)

/-- Numeric value of a digit run. -/
def digitsToNat (ds : List Char) : Nat :=
  ds.foldl (fun acc c => acc * 10 + (c.toNat - 48)) 0

/-- Parse a run of digits as a JSON integer, rejecting leading zeros as
`json.loads` does. -/
def parseIntFrom (cs : List Char) (neg : Bool) : Option (Json × List Char) :=
  match takeDigits cs with
  | ([], _) => none
  | (d :: ds, r) =>
    if ds = [] ∨ d ≠ '0' then
      let n : Int := Int.ofNat (digitsToNat (d :: ds))
      some (.num (if neg then -n else n), r)
    else none

/-- Match a literal keyword tail (`rue`, `alse`, `ull`). -/
def expectLit (lit cs : List Char) (v : Json) : Option (Json × List Char) :=
  if lit.isPrefixOf cs then some (v, cs.drop lit.length) else none

mutual

/-- Fuel-bounded recursive-descent JSON value parser modelling `json.loads`.
The fuel supplied by `jsonLoads` always suffices, since every two nested
calls consume at least one input character. -/
def parseValue : Nat → List Char → Option (Json × List Char)
  | 0, _ => none
  | fuel + 1, cs =>
    match skipWs cs with
    | [] => none
    | c :: rest =>
      if c = '"' then
        match parseStringRest rest with
        | some (s, r) => some (.str s, r)
        | none => none
      else if c = '[' then
        match skipWs rest with
        | ']' :: r => some (.arr [], r)
        | _ => parseArrItems fuel rest []
      else if c = '\x7b' then
        match skipWs rest with
        | '\x7d' :: r => some (.obj [], r)
        | _ => parseObjItems fuel rest []
      else if c = 't' then expectLit "rue".data rest (.bool true)
      else if c = 'f' then expectLit "alse".data rest (.bool false)
      else if c = 'n' then expectLit "ull".data rest .null
      else if c = '-' then parseIntFrom rest true
      else if '0' ≤ c ∧ c ≤ '9' then parseIntFrom (c :: rest) false
      else none

/-- Parse the comma-separated items of a non-empty JSON array. -/
def parseArrItems : Nat → List Char → List Json → Option (Json × List Char)
  | 0, _, _ => none
  | fuel + 1, cs, acc =>
    match parseValue fuel cs with
    | none => none
    | some (v, r) =>
      match skipWs r with
      | ',' :: r2 => parseArrItems fuel r2 (acc ++ [v])
      | ']' :: r2 => some (.arr (acc ++ [v]), r2)
      | _ => none

/-- Parse the comma-separated members of a non-empty JSON object. -/
def parseObjItems : Nat → List Char → List (List Char × Json) →
    Option (Json × List Char)
  | 0, _, _ => none
  | fuel + 1, cs, acc =>
    match skipWs cs with
    | '"' :: r =>
      match parseStringRest r with
      | none => none
      | some (k, r2) =>
        match skipWs r2 with
        | ':' :: r3 =>
          match parseValue fuel r3 with
          | none => none
          | some (v, r4) =>
            match skipWs r4 with
            | ',' :: r5 => parseObjItems fuel r5 (acc ++ [(k, v)])
            | '\x7d' :: r5 => some (.obj (acc ++ [(k, v)]), r5)
            | _ => none
        | _ => none
    | _ => none

end

/-- Model of Python `json.loads`: parse one value and require only
whitespace afterwards ("Extra data" otherwise). -/
def jsonLoads (cs : List Char) : Except String Json :=
  match parseValue (2 * cs.length + 4) cs with
  | none => .error "Expecting value"
  | some (v, rest) =>
    match skipWs rest with
    | [] => .ok v
    | _ => .error "Extra data"

/-- Result of `parse_json_response`: either the value `json.loads` produced,
or the error dictionary carrying the diagnostic message and the original raw
output. -/
inductive ParseResult where
  | ok (value : Json)
  | errorDict (error : String) (raw_output : List Char)

/-- The leading-fence step of `parse_json_response` (`chatbot_route.py`,
lines 308-311): drop a leading fence marker with the `json` tag
(7 characters) or without a tag (3 characters). -/
def strip_lead_fence (cs : List Char) : List Char :=
  if "```json".data.isPrefixOf cs then cs.drop 7
  else if "```".data.isPrefixOf cs then cs.drop 3
  else cs

/-- The trailing-fence step of `parse_json_response` (lines 313-314). -/
def strip_trail_fence (cs : List Char) : List Char :=
  if "```".data.isSuffixOf cs then cs.take (cs.length - 3) else cs

/-- The fence-stripping steps of `parse_json_response` (lines 305-314):
strip whitespace, drop a leading fence marker, drop a trailing one. -/
def strip_code_fences (llm_output : List Char) : List Char :=
  strip_trail_fence (strip_lead_fence (pyStrip llm_output))

/-- `parse_json_response`: fence-strip, strip again, `json.loads`; on a
decode error return the error dictionary carrying the ORIGINAL `llm_output`. -/
def parse_json_response (llm_output : List Char) : ParseResult :=
  match jsonLoads (pyStrip (strip_code_fences llm_output)) with
  | .ok v => .ok v
  | .error e => .errorDict ("Invalid JSON response: " ++ e) llm_output

/-- Python type name of a parsed JSON value, used in TypeError messages. -/
def pyTypeName : Json → String
  | .null => "NoneType"
  | .bool _ => "bool"
  | .num _ => "int"
  | .str _ => "str"
  | .arr _ => "list"
  | .obj _ => "dict"

/-- Does a parsed value equal the Python string with characters `k`? -/
def jsonIsStr (k : List Char) : Json → Bool
  | .str s => s == k
  | _ => false

/-- Python `k in v` on a parsed JSON value `v`; the `Except` error carries a
raised TypeError's message. -/
def pyIn (k : List Char) : Json → Except String Bool
  | .obj kvs => .ok (kvs.any (fun kv => kv.1 == k))
  | .arr xs => .ok (xs.any (fun x => jsonIsStr k x))
  | .str s => .ok (pySubstr k s)
  | v => .error ("argument of type \x27" ++ pyTypeName v ++ "\x27 is not iterable")

/-- Python `v[k]` on a parsed JSON value and string key `k`; dict lookup
keeps the last duplicate, as `json.loads` does. -/
def pyGetItem (k : List Char) : Json → Except String Json
  | .obj kvs =>
    match kvs.reverse.find? (fun kv => kv.1 == k) with
    | some kv => .ok kv.2
    | none => .error "KeyError"
  | .str _ => .error "string indices must be integers"
  | .arr _ => .error "list indices must be integers or slices, not str"
  | v => .error ("\x27" ++ pyTypeName v ++ "\x27 object is not subscriptable")

/-- Python `repr` of a parsed JSON value, fuel-bounded over the nesting
depth; refinements of string escaping inside `repr` are not modelled. -/
def pyRepr : Nat → Json → String
  | 0, _ => ""
  | _ + 1, .null => "None"
  | _ + 1, .bool true => "True"
  | _ + 1, .bool false => "False"
  | _ + 1, .num n => toString n
  | _ + 1, .str s => "\x27" ++ String.mk s ++ "\x27"
  | fuel + 1, .arr xs =>
    "[" ++ String.intercalate ", " (xs.map (fun x => pyRepr fuel x)) ++ "]"
  | fuel + 1, .obj kvs =>
    "\x7b" ++ String.intercalate ", "
      (kvs.map (fun kv => "\x27" ++ String.mk kv.1 ++ "\x27: " ++ pyRepr fuel kv.2))
      ++ "\x7d"

/-- Python `str()` of a parsed JSON value (as interpolated by an f-string),
given fuel bounding its nesting depth; a parsed value's nesting depth is
bounded by the length of the text it was parsed from, which callers pass. -/
def pyStr (fuel : Nat) : Json → String
  | .str s => String.mk s
  | v => pyRepr fuel v

/-- The Mode1 mood registry defined inside `build_mode1_prompt`. -/
def mode1_mood_instructions : List (String × String) :=
  [("casual", "Casual, friendly, and relaxed."),
   ("flirty", "Subtly playful and flirty (not explicit)."),
   ("nonchalant", "Short, detached, and unconcerned."),
   ("slap_back", "Witty, biting, and sharp (not abusive).")]

/-- The tone resolved by `build_mode1_prompt`:
`mood_instructions.get(mood, "Match the requested tone.")`. -/
def mode1_target_tone (mood : String) : String :=
  dictGet mode1_mood_instructions mood "Match the requested tone."

/-- `build_mode1_prompt` (`chatbot_route.py`, lines 46-79). -/
def build_mode1_prompt (original_message user_response mood : String)
    (personal_context image_context : Option String) : String :=
  let target_tone := mode1_target_tone mood
  let ctx_text :=
    if pyTruthy personal_context then
      "\n- Personal Context: " ++ personal_context.getD ""
    else ""
  let img_text :=
    if pyTruthy image_context then
      "\n- Visual Context from Chat Screenshot: " ++ image_context.getD ""
    else ""
  pyStripS ("\nSYSTEM INSTRUCTIONS:\nYou are an expert conversation stylist. "
    ++ "Your task is to rewrite a user\x27s draft reply to match a specific target mood.\n"
    ++ "You must strictly follow these rules:\n"
    ++ "1. Analyze the \x27Original Message\x27 and \x27User Draft\x27.\n"
    ++ "2. Rewrite the \x27User Draft\x27 to match the \x27Target Tone\x27.\n"
    ++ "3. Incorporate \x27Personal Context\x27 if provided.\n"
    ++ "4. Use \x27Visual Context\x27 from the chat screenshot to better understand the conversation flow and dynamics.\n"
    ++ "5. OUTPUT FORMAT: Respond ONLY with a JSON object in this exact format: \x7b\"reply\": \"your rewritten message here\"\x7d\n"
    ++ "6. Do NOT include markdown formatting, explanations, or any other text.\n"
    ++ "\nINPUT DATA:\n- Original Message: \"" ++ original_message
    ++ "\"\n- User Draft: \"" ++ user_response
    ++ "\"\n- Target Tone: " ++ target_tone ++ ctx_text ++ img_text
    ++ "\n\nRespond with ONLY: \x7b\"reply\": \"your rewritten message\"\x7d\n")

/-- The Mode2 opener-type registry defined inside `build_mode2_prompt`. -/
def mode2_opener_type_instructions : List (String × String) :=
  [("if_you", "Start with \x27If you...\x27 followed by an interesting hypothetical scenario or question."),
   ("between", "Start with \x27Between...\x27 presenting two interesting options or choices."),
   ("if_i_was", "Start with \x27If I was...\x27 creating an imaginative scenario or role-play situation."),
   ("would_you_rather", "Start with \x27Would you rather...\x27 presenting two intriguing alternatives."),
   ("what_is_something", "Start with \x27What is something that...\x27 asking about preferences, experiences, or beliefs."),
   ("in_a_situation", "Start with \x27In a situation where...\x27 describing a hypothetical scenario."),
   ("how_would_you_handle", "Start with \x27How would you handle...\x27 presenting a situation requiring a response or decision.")]

/-- The instruction resolved by `build_mode2_prompt`: registry lookup with
its default. -/
def mode2_opener_instruction (opener_type : String) : String :=
  dictGet mode2_opener_type_instructions opener_type
    "Generate an engaging conversation opener."

/-- `build_mode2_prompt` (`chatbot_route.py`, lines 96-130). -/
def build_mode2_prompt (opener_type : String) (context : Option String) : String :=
  let opener_instruction := mode2_opener_instruction opener_type
  let ctx_text := if pyTruthy context then "\nCONTEXT: " ++ context.getD "" else ""
  pyStripS ("\nSYSTEM INSTRUCTIONS:\nYou are an expert conversation starter and "
    ++ "social communication specialist. Your task is to generate engaging, creative, "
    ++ "and personalized icebreaker messages for conversations.\n"
    ++ "\nYou must strictly follow these rules:\n"
    ++ "1. Generate a conversation opener based on the specified \x27Opener Type\x27.\n"
    ++ "2. Make it interesting, engaging, and natural - not too formal or awkward.\n"
    ++ "3. If \x27Context\x27 is provided, incorporate it subtly to make the opener more personalized and relevant.\n"
    ++ "4. Keep it concise (1-3 sentences maximum).\n"
    ++ "5. Make it open-ended to encourage a response.\n"
    ++ "6. OUTPUT FORMAT: Respond ONLY with a JSON object in this exact format: \x7b\"reply\": \"your icebreaker message here\"\x7d\n"
    ++ "7. Do NOT include markdown formatting, explanations, or any other text.\n"
    ++ "\nTASK:\n- Opener Type: " ++ opener_instruction ++ ctx_text
    ++ "\n\nRespond with ONLY: \x7b\"reply\": \"your icebreaker message\"\x7d\n")

/-- The Mode3 mood registry defined inside `build_mode3_prompt`. -/
def mode3_mood_instructions : List (String × String) :=
  [("casual", "Keep it light, relaxed, and easy-going. Don\x27t overthink the situation."),
   ("apologetic", "Be understanding and apologetic. Show you care about the confusion or misunderstanding."),
   ("encouraging", "Be positive, supportive, and uplifting. Turn the awkward moment into something good."),
   ("sarcastic", "Use witty sarcasm and humor to deflect or address the situation playfully (not mean)."),
   ("curious", "Show genuine interest and curiosity. Ask questions to understand better."),
   ("flirty", "Turn the awkward moment into a playful, flirty opportunity while staying smooth."),
   ("empathetic", "Show deep understanding and emotional connection. Validate their feelings or situation.")]

/-- The tone resolved by `build_mode3_prompt`:
`mood_instructions.get(mood, "Handle the situation appropriately.")`. -/
def mode3_target_tone (mood : String) : String :=
  dictGet mode3_mood_instructions mood "Handle the situation appropriately."

/-- `build_mode3_prompt` (`chatbot_route.py`, lines 147-182). -/
def build_mode3_prompt (situation_description mood : String)
    (image_context : Option String) : String :=
  let target_tone := mode3_target_tone mood
  let img_text :=
    if pyTruthy image_context then
      "\n- Visual Context from Screenshot: " ++ image_context.getD ""
    else ""
  pyStripS ("\nSYSTEM INSTRUCTIONS:\nYou are an expert at handling awkward, "
    ++ "confusing, or curveball moments in conversations. Your task is to craft "
    ++ "the perfect reply that handles the situation smoothly.\n"
    ++ "\nYou must strictly follow these rules:\n"
    ++ "1. Analyze the curveball/awkward situation described.\n"
    ++ "2. Generate a reply that handles it according to the specified mood.\n"
    ++ "3. Make it natural, authentic, and conversation-appropriate.\n"
    ++ "4. Keep it concise (1-3 sentences typically).\n"
    ++ "5. Turn the awkward moment into a smooth continuation of the conversation.\n"
    ++ "6. OUTPUT FORMAT: Respond ONLY with a JSON object in this exact format: \x7b\"reply\": \"your response here\"\x7d\n"
    ++ "7. Do NOT include markdown formatting, explanations, or any other text.\n"
    ++ "\nINPUT DATA:\n- Situation: \"" ++ situation_description
    ++ "\"\n- Target Mood: " ++ target_tone ++ img_text
    ++ "\n\nRespond with ONLY: \x7b\"reply\": \"your curveball response\"\x7d\n")

/-- `ChatbotService.PMOOD_DEFINITIONS` (`chatbot.py`, lines 19-39), in the
dict's insertion order. -/
def PMOOD_DEFINITIONS : List (String × String) :=
  [("pmood1", "Bold Energy: Make every word count with impact and strength. Use assertive language, \n        strong statements, and confident phrasing. Your message should command attention and leave no room \n        for ambiguity. Be direct, powerful, and unapologetic in your expression."),
   ("pmood2", "Confidence in Every Word: Express yourself with unwavering self-assurance and poise. \n        Use language that demonstrates certainty, competence, and ease. Avoid hedging words like \x27maybe\x27, \n        \x27I think\x27, or \x27perhaps\x27. Instead, state things with conviction and natural authority."),
   ("pmood3", "Fun Vibes Only: Keep it light, playful, and effortlessly entertaining. Use humor, \n        wit, and upbeat energy. Include playful language, casual expressions, and an easy-going tone \n        that makes the conversation feel enjoyable and stress-free. Make them smile."),
   ("pmood4", "Soft but Strong: Balance warmth with confidence. Be kind, empathetic, and genuine \n        while maintaining your ground. Use gentle language that shows care and understanding, but never \n        comes across as weak or uncertain. Demonstrate emotional intelligence and authentic connection."),
   ("pmood5", "Flirty Vibes: Add subtle playfulness and romantic intrigue. Use light teasing, \n        playful banter, and charming language that creates attraction. Be engaging and slightly mysterious, \n        with hints of interest that invite reciprocation. Keep it classy, not overly forward.")]

/-- `ChatbotService.MODE1_TONES` (`chatbot.py`). -/
def MODE1_TONES : List (String × String) :=
  [("casual", "Keep the tone light, friendly, and conversational. Use casual language, humor, and a relaxed vibe."),
   ("flirty", "Add a playful, charming tone with light teasing. Be engaging, witty, and slightly flirty while remaining respectful."),
   ("nonchalant", "Maintain a cool, unbothered attitude. Be witty, slightly detached, and confident while staying genuine.")]

/-- `ChatbotService._build_pmood_instruction` (`chatbot.py`, lines 78-105). -/
def _build_pmood_instruction (pmoods_off : Option (List String)) : String :=
  let all_moods := PMOOD_DEFINITIONS.map (fun kv => kv.1)
  let active_moods :=
    match pmoods_off with
    | some l =>
      if l.length > 0 then all_moods.filter (fun m => !(l.contains m))
      else all_moods
    | none => all_moods
  if active_moods.isEmpty then ""
  else
    let mood_descriptions :=
      (active_moods.filter (fun m => all_moods.contains m)).map
        (fun m => dictGet PMOOD_DEFINITIONS m "")
    if mood_descriptions.isEmpty then ""
    else
      "\n\nPERSONALIZATION LAYER - Apply these personality traits to your response:\n"
        ++ String.intercalate "\n" mood_descriptions
        ++ "\n\nBlend these traits naturally into your response without being heavy-handed."

/-- The `user_prompt` string assembled by
`ChatbotService.generate_mode1_reply` (`chatbot.py`, lines 159-194); the
provider call and fallback handling around it are effects outside this pure
construction. -/
def generate_mode1_reply_user_prompt (opposite_message user_message : String)
    (mode context : Option String) (pmoods_off : Option (List String)) : String :=
  let tone_instruction :=
    if pyTruthy context ∧ (pyStripS (context.getD "")).length > 0 then
      "Shape your response based on this context: " ++ context.getD ""
    else
      let mode_name := pyOr mode "casual"
      dictGet MODE1_TONES mode_name (dictGet MODE1_TONES "casual" "")
  let pmood_instruction := _build_pmood_instruction pmoods_off
  "\nOTHER PERSON\x27S MESSAGE:\n\"" ++ opposite_message
    ++ "\"\n\nWHAT I WANT TO SAY:\n\"" ++ user_message
    ++ "\"\n\nTONE INSTRUCTION:\n" ++ tone_instruction ++ pmood_instruction
    ++ "\n\nGenerate a natural reply that incorporates what I want to say while responding to their message in the specified tone."

/-- An uploaded file as seen by the endpoint; only the MIME type matters. -/
structure PyUploadFile where
  content_type : Option String

/-- The multipart form fields accepted by `POST /chat` (`unified_chat`). -/
structure ChatForm where
  mode : String
  original_message : Option String
  response : Option String
  mood : Option String
  personal_context : Option String
  opener_type : Option String
  context : Option String
  situation_description : Option String
  file : Option PyUploadFile

/-- Outcome of one Gemini vision call as observed by
`extract_context_from_image`: a response whose `.text` attribute is the
given optional string, or a raised exception. -/
inductive VisionOutcome where
  | response (text : Option String)
  | exn (msg : String)

/-- Outcome of one text-generation call: a completed response whose content
is the given optional string, or a raised exception. -/
inductive GenOutcome where
  | content (text : Option String)
  | exn (msg : String)

/-- The provider behaviour a single request observes. -/
structure Providers where
  vision : VisionOutcome
  groq : GenOutcome
  gemini : GenOutcome

/-- A provider contact made while serving a request. -/
inductive ProviderCall where
  | vision
  | groq
  | gemini
deriving DecidableEq

/-- An HTTPException as raised by the route. -/
structure HTTPError where
  status_code : Nat
  detail : String
deriving DecidableEq

/-- `extract_context_from_image` (`chatbot_route.py`, lines 185-255): any
provider failure or empty text is demoted to `none`; non-empty text is
stripped and returned. -/
def extract_context_from_image (o : VisionOutcome) : Option String :=
  match o with
  | .response (some t) => if t ≠ "" then some (pyStripS t) else none
  | .response none => none
  | .exn _ => none

/-- `call_groq_api` (`chatbot_route.py`, lines 261-277): empty content
raises a 500 that the blanket handler rewraps; any exception becomes a 500
with the exception text appended. -/
def call_groq_api (o : GenOutcome) : Except HTTPError String :=
  match o with
  | .content (some s) =>
    if s ≠ "" then .ok (pyStripS s)
    else .error ⟨500, "Failed to call Groq API: 500: Groq API returned empty response"⟩
  | .content none =>
    .error ⟨500, "Failed to call Groq API: 500: Groq API returned empty response"⟩
  | .exn m => .error ⟨500, "Failed to call Groq API: " ++ m⟩

/-- `call_gemini_api` (`chatbot_route.py`, lines 280-300). -/
def call_gemini_api (o : GenOutcome) : Except HTTPError String :=
  match o with
  | .content (some s) =>
    if s ≠ "" then .ok (pyStripS s)
    else .error ⟨500, "Failed to call Gemini API: 500: Gemini API returned empty response"⟩
  | .content none =>
    .error ⟨500, "Failed to call Gemini API: 500: Gemini API returned empty response"⟩
  | .exn m => .error ⟨500, "Failed to call Gemini API: " ++ m⟩

/-- The MIME allow-list checked by `unified_chat`. -/
def allowed_types : List String :=
  ["image/png", "image/jpeg", "image/webp", "image/heic", "image/heif"]

/-- The response-normalization block shared by the three mode branches of
`unified_chat`: parse the raw response, fail on an `error` key, require a
`reply` key, and return the single-field reply object. -/
def handle_parsed_result (raw_response : String) : Except HTTPError Json :=
  match parse_json_response raw_response.data with
  | .errorDict e _ => .error ⟨500, "Response parsing failed: " ++ e⟩
  | .ok result =>
    match pyIn "error".data result with
    | .error te => .error ⟨500, te⟩
    | .ok true =>
      match pyGetItem "error".data result with
      | .error te => .error ⟨500, te⟩
      | .ok v => .error ⟨500, "Response parsing failed: " ++ pyStr raw_response.length v⟩
    | .ok false =>
      match pyIn "reply".data result with
      | .error te => .error ⟨500, te⟩
      | .ok false => .error ⟨500, "Missing \x27reply\x27 in response"⟩
      | .ok true =>
        match pyGetItem "reply".data result with
        | .error te => .error ⟨500, te⟩
        | .ok r => .ok (.obj [("reply".data, r)])

/-- The image-handling block at the top of `unified_chat` (lines 352-371):
MIME validation then optional vision extraction, together with the provider
calls it makes. -/
def image_phase (p : Providers) (f : ChatForm) (mode : String) :
    Except HTTPError (Option String) × List ProviderCall :=
  match f.file with
  | none => (.ok none, [])
  | some file =>
    if mode = "mode1" ∨ mode = "mode3" then
      match file.content_type with
      | none =>
        (.error ⟨400, "File must be one of: PNG, JPEG, WEBP, HEIC, HEIF. Received: None"⟩, [])
      | some ct =>
        if ct = "" ∨ ¬ allowed_types.contains ct then
          (.error ⟨400, "File must be one of: PNG, JPEG, WEBP, HEIC, HEIF. Received: " ++ ct⟩, [])
        else
          (.ok (extract_context_from_image p.vision), [.vision])
    else (.ok none, [])

/-- The per-mode branch of `unified_chat` (lines 373-465), run after the
image phase. -/
def mode_outcome (p : Providers) (f : ChatForm) (mode : String)
    (image_context : Option String) : Except HTTPError Json × List ProviderCall :=
  if mode = "mode1" then
    if ¬ (pyTruthy f.original_message ∧ pyTruthy f.response) then
      (.error ⟨400, "Mode1 requires \x27original_message\x27 and \x27response\x27 fields"⟩, [])
    else
      let _prompt := build_mode1_prompt (f.original_message.getD "")
        (f.response.getD "") (pyOr f.mood "casual") f.personal_context image_context
      match call_gemini_api p.gemini with
      | .error e => (.error e, [.gemini])
      | .ok raw_response => (handle_parsed_result raw_response, [.gemini])
  else if mode = "mode2" then
    if ¬ pyTruthy f.opener_type then
      (.error ⟨400, "Mode2 requires \x27opener_type\x27 field"⟩, [])
    else
      let _prompt := build_mode2_prompt (f.opener_type.getD "") f.context
      match call_groq_api p.groq with
      | .error e => (.error e, [.groq])
      | .ok raw_response => (handle_parsed_result raw_response, [.groq])
  else if mode = "mode3" then
    if ¬ pyTruthy f.situation_description then
      (.error ⟨400, "Mode3 requires \x27situation_description\x27 field"⟩, [])
    else
      let _prompt := build_mode3_prompt (f.situation_description.getD "")
        (pyOr f.mood "casual") image_context
      match call_gemini_api p.gemini with
      | .error e => (.error e, [.gemini])
      | .ok raw_response => (handle_parsed_result raw_response, [.gemini])
  else
    (.error ⟨400, "Invalid mode \x27" ++ mode ++ "\x27. Must be \x27mode1\x27, \x27mode2\x27, or \x27mode3\x27"⟩, [])

/-- `unified_chat` (`POST /chat`): lowercase the mode, run the image phase,
then the mode branch; returns the HTTP outcome together with the provider
calls made, in order. -/
def unified_chat (p : Providers) (f : ChatForm) :
    Except HTTPError Json × List ProviderCall :=
  let mode := pyLower f.mode
  match image_phase p f mode with
  | (.error e, tr) => (.error e, tr)
  | (.ok image_context, tr) =>
    let r := mode_outcome p f mode image_context
    (r.1, tr ++ r.2)


/-- A Mode1 request missing its required `original_message` but carrying a
valid PNG attachment. -/
def C1form : ChatForm :=
  { mode := "mode1", original_message := none, response := some "My draft",
    mood := none, personal_context := none, opener_type := none,
    context := none, situation_description := none,
    file := some ⟨some "image/png"⟩ }

/-- Providers for the C1 scenario; the generation outputs are never used. -/
def C1prov : Providers :=
  ⟨.exn "vision unavailable", .content (some "x"), .content (some "x")⟩

/-- A complete Mode1 request with a valid PNG attachment. -/
def C8form : ChatForm :=
  { mode := "mode1", original_message := some "Hey, what are you up to?",
    response := some "Nothing much", mood := some "casual",
    personal_context := none, opener_type := none, context := none,
    situation_description := none, file := some ⟨some "image/png"⟩ }

/-- Providers for the C8 scenario: the vision call raises, while the text
generation succeeds with a well-formed reply object. -/
def C8prov : Providers :=
  ⟨.exn "vision fault", .content (some "unused"),
   .content (some "\x7b\"reply\": \"hi\"\x7d")⟩

/-- A Mode2 request that also carries an attachment of a disallowed MIME
type (`image/gif`). -/
def C9form : ChatForm :=
  { mode := "mode2", original_message := none, response := none,
    mood := none, personal_context := none, opener_type := some "if_you",
    context := none, situation_description := none,
    file := some ⟨some "image/gif"⟩ }

/-- Providers for the C9 counterexample scenario. -/
def C9prov : Providers :=
  ⟨.exn "never called", .content (some "\x7b\"reply\": \"yo\"\x7d"),
   .content (some "never called")⟩

/-- A Mode3 request carrying an attachment of a disallowed MIME type
(`image/bmp`). -/
def C9wform : ChatForm :=
  { mode := "mode3", original_message := none, response := none,
    mood := none, personal_context := none, opener_type := none,
    context := none, situation_description := some "She sent three emojis",
    file := some ⟨some "image/bmp"⟩ }

/-- Providers for the C9 witness scenario; never reached. -/
def C9wprov : Providers :=
  ⟨.exn "never called", .content (some "x"), .content (some "x")⟩

/-! ## Helper lemmas -/

/-- `dropWhile` keeps a list whose head fails the predicate. -/
theorem dropWhile_cons_false {p : Char → Bool} {a : Char} (l : List Char)
    (h : p a = false) : List.dropWhile p (a :: l) = a :: l := by
  simp [List.dropWhile_cons, h]

/-- `dropWhile` skips a head that satisfies the predicate. -/
theorem dropWhile_cons_true {p : Char → Bool} {a : Char} (l : List Char)
    (h : p a = true) : List.dropWhile p (a :: l) = List.dropWhile p l := by
  simp [List.dropWhile_cons, h]

/-- Stripping changes nothing when both ends are non-whitespace. -/
theorem pyStrip_wrap (a b : Char) (l : List Char)
    (ha : isPySpace a = false) (hb : isPySpace b = false) :
    pyStrip (a :: (l ++ [b])) = a :: (l ++ [b]) := by
  unfold pyStrip
  rw [dropWhile_cons_false _ ha]
  have h1 : (a :: (l ++ [b])).reverse = b :: (l.reverse ++ [a]) := by simp
  rw [h1, dropWhile_cons_false _ hb]
  simp

/-- Stripping removes a single layer of surrounding whitespace. -/
theorem pyStrip_ws_wrap (a b : Char) (l : List Char)
    (ha : isPySpace a = true) (hb : isPySpace b = true) :
    pyStrip (a :: (l ++ [b])) = pyStrip l := by
  unfold pyStrip
  rw [dropWhile_cons_true _ ha, List.dropWhile_append]
  by_cases hc : (List.dropWhile isPySpace l).isEmpty
  · have h0 : List.dropWhile isPySpace l = [] := List.isEmpty_iff.mp hc
    simp [h0, List.dropWhile_cons, hb]
  · rw [if_neg hc]
    have h1 : (List.dropWhile isPySpace l ++ [b]).reverse
        = b :: (List.dropWhile isPySpace l).reverse := by simp
    rw [h1, dropWhile_cons_true _ hb]

/-- A registry lookup whose key matches no entry returns the default. -/
theorem dictGet_default (d : List (String × String)) (key default : String)
    (h : ∀ kv ∈ d, kv.1 ≠ key) : dictGet d key default = default := by
  unfold dictGet
  rw [List.find?_eq_none.mpr]
  intro kv hkv
  simp only [beq_iff_eq]
  exact h kv hkv

/-! ## C4 and C10: the response normalizer preserves raw text and is total -/

/-- C4: for every raw provider output that is not parseable after
fence-stripping, `parse_json_response` returns the invalid-format error
dictionary carrying the original, unmodified raw text; and it returns a
parsed value only when `json.loads` genuinely produced it, never a
synthesized reply. -/
theorem C4_invalid_format_preserves_raw (cs : List Char) :
    (∀ e, jsonLoads (pyStrip (strip_code_fences cs)) = .error e →
      parse_json_response cs = .errorDict ("Invalid JSON response: " ++ e) cs)
    ∧ (∀ j, parse_json_response cs = .ok j →
      jsonLoads (pyStrip (strip_code_fences cs)) = .ok j) := by
  constructor
  · intro e he
    simp [parse_json_response, he]
  · intro j hj
    unfold parse_json_response at hj
    cases h : jsonLoads (pyStrip (strip_code_fences cs)) with
    | ok v => rw [h] at hj; cases hj; rfl
    | error e => rw [h] at hj; cases hj

/-- Witness for C4 at the concrete unparseable output `hello`. -/
theorem C4_witness :
    parse_json_response "hello".data
      = .errorDict ("Invalid JSON response: " ++ "Expecting value") "hello".data :=
  (C4_invalid_format_preserves_raw "hello".data).1 "Expecting value" rfl

/-- C10 (amended): `parse_json_response` is total and returns either the
value `json.loads` produced — which need not be an object — or the error
dictionary carrying the original input. -/
theorem C10_total (cs : List Char) :
    (∃ j, parse_json_response cs = .ok j)
    ∨ (∃ e, parse_json_response cs = .errorDict e cs) := by
  unfold parse_json_response
  cases jsonLoads (pyStrip (strip_code_fences cs)) with
  | ok v => exact Or.inl ⟨v, rfl⟩
  | error e => exact Or.inr ⟨"Invalid JSON response: " ++ e, rfl⟩

/-- Counterexample for C10 as stated: on the input `[1, 2]` the normalizer
returns the parsed list unchanged, which is neither a parsed JSON object
nor an error dictionary. -/
theorem C10_counterexample :
    ¬ ((∃ kvs, parse_json_response "[1, 2]".data = .ok (.obj kvs))
      ∨ (∃ e raw, parse_json_response "[1, 2]".data = .errorDict e raw)) := by
  have hv : parse_json_response "[1, 2]".data = .ok (.arr [.num 1, .num 2]) := rfl
  rintro (⟨kvs, h⟩ | ⟨e, raw, h⟩) <;> rw [hv] at h <;> simp at h

/-! ## C7: generation clients surface failures uniformly -/

/-- C7: for both generation clients, a raised transport/auth failure and a
structurally empty successful response each surface as a 500 provider error
with a descriptive detail, and a successful return is always the provider's
own stripped non-empty content — never a substituted default. -/
theorem C7_provider_error_uniform :
    (∀ m, call_groq_api (.exn m)
      = .error ⟨500, "Failed to call Groq API: " ++ m⟩)
    ∧ call_groq_api (.content none)
      = .error ⟨500, "Failed to call Groq API: 500: Groq API returned empty response"⟩
    ∧ call_groq_api (.content (some ""))
      = .error ⟨500, "Failed to call Groq API: 500: Groq API returned empty response"⟩
    ∧ (∀ m, call_gemini_api (.exn m)
      = .error ⟨500, "Failed to call Gemini API: " ++ m⟩)
    ∧ call_gemini_api (.content none)
      = .error ⟨500, "Failed to call Gemini API: 500: Gemini API returned empty response"⟩
    ∧ call_gemini_api (.content (some ""))
      = .error ⟨500, "Failed to call Gemini API: 500: Gemini API returned empty response"⟩
    ∧ (∀ o s, call_groq_api o = .ok s →
        ∃ t, o = .content (some t) ∧ t ≠ "" ∧ s = pyStripS t)
    ∧ (∀ o s, call_gemini_api o = .ok s →
        ∃ t, o = .content (some t) ∧ t ≠ "" ∧ s = pyStripS t) := by
  refine ⟨fun m => rfl, rfl, rfl, fun m => rfl, rfl, rfl, ?_, ?_⟩
  · intro o s h
    cases o with
    | exn m => exact Except.noConfusion h
    | content c =>
      cases c with
      | none => exact Except.noConfusion h
      | some t =>
        by_cases ht : t = ""
        · subst ht
          simp [call_groq_api] at h
        · simp [call_groq_api, ht] at h
          subst h
          exact ⟨t, rfl, ht, rfl⟩
  · intro o s h
    cases o with
    | exn m => exact Except.noConfusion h
    | content c =>
      cases c with
      | none => exact Except.noConfusion h
      | some t =>
        by_cases ht : t = ""
        · subst ht
          simp [call_gemini_api] at h
        · simp [call_gemini_api, ht] at h
          subst h
          exact ⟨t, rfl, ht, rfl⟩

/-- Witness for C7: a successful groq call returns exactly the provider's
stripped content. -/
theorem C7_witness :
    ∃ t, GenOutcome.content (some "hi") = GenOutcome.content (some t)
      ∧ t ≠ "" ∧ "hi" = pyStripS t :=
  C7_provider_error_uniform.2.2.2.2.2.2.1 (.content (some "hi")) "hi" rfl

/-! ## C5: the personalization blender -/

/-- C5: when the opt-out list covers the whole trait universe the blender
returns the empty string, and when the opt-out list is absent or empty it
returns the single-header instruction block containing every trait's text
in the registry's canonical order followed by the closing blend directive. -/
theorem C5_pmood_blend :
    (∀ l : List String, "pmood1" ∈ l → "pmood2" ∈ l → "pmood3" ∈ l →
      "pmood4" ∈ l → "pmood5" ∈ l → _build_pmood_instruction (some l) = "")
    ∧ _build_pmood_instruction none
      = "\n\nPERSONALIZATION LAYER - Apply these personality traits to your response:\n"
        ++ String.intercalate "\n" (PMOOD_DEFINITIONS.map (fun kv => kv.2))
        ++ "\n\nBlend these traits naturally into your response without being heavy-handed."
    ∧ _build_pmood_instruction (some [])
      = "\n\nPERSONALIZATION LAYER - Apply these personality traits to your response:\n"
        ++ String.intercalate "\n" (PMOOD_DEFINITIONS.map (fun kv => kv.2))
        ++ "\n\nBlend these traits naturally into your response without being heavy-handed." := by
  refine ⟨?_, rfl, rfl⟩
  intro l h1 h2 h3 h4 h5
  have hne : l ≠ [] := List.ne_nil_of_mem h1
  have hlen : 0 < l.length := List.length_pos.mpr hne
  simp [_build_pmood_instruction, PMOOD_DEFINITIONS, hlen, List.filter, h1, h2, h3, h4, h5]

/-- Witness for C5 at the concrete full opt-out list, in caller order. -/
theorem C5_witness :
    _build_pmood_instruction
      (some ["pmood5", "pmood4", "pmood3", "pmood2", "pmood1"]) = "" :=
  C5_pmood_blend.1 _ (by decide) (by decide) (by decide) (by decide) (by decide)

/-! ## C6: registry lookups degrade to defaults -/

/-- C6: for every identifier not in the mode's registry the lookup used by
each prompt builder returns that registry's designated default description,
and an absent mood at the dispatcher degrades to the `casual` registry
entry; no lookup is an error. -/
theorem C6_registry_defaults :
    (∀ mood : String,
      mood ∉ ["casual", "flirty", "nonchalant", "slap_back"] →
      mode1_target_tone mood = "Match the requested tone.")
    ∧ (∀ mood : String,
      mood ∉ ["casual", "apologetic", "encouraging", "sarcastic", "curious",
              "flirty", "empathetic"] →
      mode3_target_tone mood = "Handle the situation appropriately.")
    ∧ (∀ ot : String,
      ot ∉ ["if_you", "between", "if_i_was", "would_you_rather",
            "what_is_something", "in_a_situation", "how_would_you_handle"] →
      mode2_opener_instruction ot = "Generate an engaging conversation opener.")
    ∧ (pyOr none "casual" = "casual"
      ∧ mode1_target_tone "casual" = "Casual, friendly, and relaxed."
      ∧ mode3_target_tone "casual"
        = "Keep it light, relaxed, and easy-going. Don\x27t overthink the situation.") := by
  refine ⟨?_, ?_, ?_, rfl, rfl, rfl⟩
  · intro mood h
    simp only [List.mem_cons, List.not_mem_nil, or_false, not_or] at h
    obtain ⟨h1, h2, h3, h4⟩ := h
    unfold mode1_target_tone
    refine dictGet_default _ _ _ ?_
    intro kv hkv
    simp only [mode1_mood_instructions, List.mem_cons, List.not_mem_nil,
      or_false] at hkv
    obtain rfl | rfl | rfl | rfl := hkv
    · exact fun e => h1 e.symm
    · exact fun e => h2 e.symm
    · exact fun e => h3 e.symm
    · exact fun e => h4 e.symm
  · intro mood h
    simp only [List.mem_cons, List.not_mem_nil, or_false, not_or] at h
    obtain ⟨h1, h2, h3, h4, h5, h6, h7⟩ := h
    unfold mode3_target_tone
    refine dictGet_default _ _ _ ?_
    intro kv hkv
    simp only [mode3_mood_instructions, List.mem_cons, List.not_mem_nil,
      or_false] at hkv
    obtain rfl | rfl | rfl | rfl | rfl | rfl | rfl := hkv
    · exact fun e => h1 e.symm
    · exact fun e => h2 e.symm
    · exact fun e => h3 e.symm
    · exact fun e => h4 e.symm
    · exact fun e => h5 e.symm
    · exact fun e => h6 e.symm
    · exact fun e => h7 e.symm
  · intro mood h
    simp only [List.mem_cons, List.not_mem_nil, or_false, not_or] at h
    obtain ⟨h1, h2, h3, h4, h5, h6, h7⟩ := h
    unfold mode2_opener_instruction
    refine dictGet_default _ _ _ ?_
    intro kv hkv
    simp only [mode2_opener_type_instructions, List.mem_cons, List.not_mem_nil,
      or_false] at hkv
    obtain rfl | rfl | rfl | rfl | rfl | rfl | rfl := hkv
    · exact fun e => h1 e.symm
    · exact fun e => h2 e.symm
    · exact fun e => h3 e.symm
    · exact fun e => h4 e.symm
    · exact fun e => h5 e.symm
    · exact fun e => h6 e.symm
    · exact fun e => h7 e.symm

/-- Witness for C6 at a concrete unknown identifier. -/
theorem C6_witness :
    mode1_target_tone "zesty" = "Match the requested tone." :=
  C6_registry_defaults.1 "zesty" (by decide)


/-! ## C2: fence stripping in the normalizer -/

/-- A leading fence with the `json` language tag is dropped whole. -/
theorem strip_lead_fence_json (R : List Char) :
    strip_lead_fence ('`' :: '`' :: '`' :: 'j' :: 's' :: 'o' :: 'n' :: '\n' :: R)
      = '\n' :: R := by
  unfold strip_lead_fence
  rw [if_pos] <;> rfl

/-- A leading fence with no language tag loses exactly its three backticks. -/
theorem strip_lead_fence_no_tag (R : List Char) :
    strip_lead_fence ('`' :: '`' :: '`' :: '\n' :: R) = '\n' :: R := by
  unfold strip_lead_fence
  rw [if_neg (fun hh => Bool.noConfusion hh)]
  rw [if_pos] <;> rfl

/-- A trailing fence marker is dropped whole. -/
theorem strip_trail_fence_wrap (l : List Char) :
    strip_trail_fence (l ++ ['`', '`', '`']) = l := by
  unfold strip_trail_fence
  rw [if_pos]
  · have h1 : (l ++ ['`', '`', '`']).length - 3 = l.length := by simp
    rw [h1, List.take_left]
  · show ("```".data.reverse.isPrefixOf (l ++ ['`', '`', '`']).reverse) = true
    rw [List.reverse_append]
    show (['`', '`', '`'].isPrefixOf ('`' :: '`' :: '`' :: l.reverse)) = true
    simp [List.isPrefixOf_cons₂, List.isPrefixOf_nil_left]

/-- C2 (amended): a raw output wrapped in triple-backtick fences with the
`json` language tag or with no tag is normalized by stripping exactly the
fence markers, and parses whenever the fenced remainder is valid JSON.
(Outputs fenced with any other language tag are not handled; see the
counterexample.) -/
theorem C2_fenced_output_normalized (body : List Char) (j : Json)
    (h : jsonLoads (pyStrip body) = .ok j) :
    parse_json_response ("```json\n".data ++ (body ++ "\n```".data)) = .ok j
    ∧ parse_json_response ("```\n".data ++ (body ++ "\n```".data)) = .ok j := by
  constructor
  · unfold parse_json_response strip_code_fences
    have e0 : "```json\n".data ++ (body ++ "\n```".data)
        = '`' :: ((('`' :: '`' :: 'j' :: 's' :: 'o' :: 'n' :: '\n' :: body)
            ++ ['\n', '`', '`']) ++ ['`']) := by
      show ('`' :: '`' :: '`' :: 'j' :: 's' :: 'o' :: 'n' :: '\n'
          :: (body ++ ('\n' :: '`' :: '`' :: '`' :: []))) = _
      simp
    rw [e0, pyStrip_wrap '`' '`' _ rfl rfl]
    have e1 : '`' :: ((('`' :: '`' :: 'j' :: 's' :: 'o' :: 'n' :: '\n' :: body)
          ++ ['\n', '`', '`']) ++ ['`'])
        = '`' :: '`' :: '`' :: 'j' :: 's' :: 'o' :: 'n' :: '\n'
          :: (body ++ ['\n', '`', '`', '`']) := by simp
    rw [e1, strip_lead_fence_json]
    have e2 : '\n' :: (body ++ ['\n', '`', '`', '`'])
        = ('\n' :: (body ++ ['\n'])) ++ ['`', '`', '`'] := by simp
    rw [e2, strip_trail_fence_wrap, pyStrip_ws_wrap '\n' '\n' _ rfl rfl, h]
  · unfold parse_json_response strip_code_fences
    have e0 : "```\n".data ++ (body ++ "\n```".data)
        = '`' :: ((('`' :: '`' :: '\n' :: body)
            ++ ['\n', '`', '`']) ++ ['`']) := by
      show ('`' :: '`' :: '`' :: '\n'
          :: (body ++ ('\n' :: '`' :: '`' :: '`' :: []))) = _
      simp
    rw [e0, pyStrip_wrap '`' '`' _ rfl rfl]
    have e1 : '`' :: ((('`' :: '`' :: '\n' :: body) ++ ['\n', '`', '`']) ++ ['`'])
        = '`' :: '`' :: '`' :: '\n' :: (body ++ ['\n', '`', '`', '`']) := by simp
    rw [e1, strip_lead_fence_no_tag]
    have e2 : '\n' :: (body ++ ['\n', '`', '`', '`'])
        = ('\n' :: (body ++ ['\n'])) ++ ['`', '`', '`'] := by simp
    rw [e2, strip_trail_fence_wrap, pyStrip_ws_wrap '\n' '\n' _ rfl rfl, h]

/-- Counterexample for C2 as stated: the fenced remainder is a valid JSON
object, yet with the `python` language tag the normalizer leaves the tag
text in place and fails. -/
theorem C2_counterexample :
    jsonLoads (pyStrip "\x7b\"reply\": \"hi\"\x7d".data)
      = .ok (.obj [("reply".data, .str "hi".data)])
    ∧ parse_json_response "```python\n\x7b\"reply\": \"hi\"\x7d\n```".data
      = .errorDict "Invalid JSON response: Expecting value"
          "```python\n\x7b\"reply\": \"hi\"\x7d\n```".data :=
  ⟨rfl, rfl⟩

/-- Witness for C2 at a concrete fenced reply object. -/
theorem C2_witness :
    parse_json_response
        ("```json\n".data ++ ("\x7b\"reply\": \"ok\"\x7d".data ++ "\n```".data))
      = .ok (.obj [("reply".data, .str "ok".data)])
    ∧ parse_json_response
        ("```\n".data ++ ("\x7b\"reply\": \"ok\"\x7d".data ++ "\n```".data))
      = .ok (.obj [("reply".data, .str "ok".data)]) :=
  C2_fenced_output_normalized "\x7b\"reply\": \"ok\"\x7d".data
    (.obj [("reply".data, .str "ok".data)]) rfl


/-! ## C3: empty context contributes nothing -/

/-- C3 (amended): an absent or empty optional context contributes nothing to
any built prompt, and in the service-layer builder a context that strips to
empty likewise contributes nothing; a whitespace-only context in the route
builders, however, does produce a context line (see the counterexample). -/
theorem C3_empty_context_contributes_nothing :
    (∀ m r mo ic, build_mode1_prompt m r mo (some "") ic
      = build_mode1_prompt m r mo none ic)
    ∧ (∀ m r mo pc, build_mode1_prompt m r mo pc (some "")
      = build_mode1_prompt m r mo pc none)
    ∧ (∀ ot, build_mode2_prompt ot (some "") = build_mode2_prompt ot none)
    ∧ (∀ s mo, build_mode3_prompt s mo (some "") = build_mode3_prompt s mo none)
    ∧ (∀ om um mo pm (ctx : String), pyStripS ctx = "" →
      generate_mode1_reply_user_prompt om um mo (some ctx) pm
        = generate_mode1_reply_user_prompt om um mo none pm) := by
  refine ⟨fun m r mo ic => rfl, fun m r mo pc => rfl, fun ot => rfl,
    fun s mo => rfl, ?_⟩
  intro om um mo pm ctx h
  have hF : ¬(pyTruthy (some ctx) = true
      ∧ (pyStripS ((some ctx).getD "")).length > 0) := by
    rintro ⟨-, h2⟩
    have h2x : (pyStripS ctx).length > 0 := h2
    rw [h] at h2x
    exact absurd h2x (by decide)
  have hF0 : ¬(pyTruthy (none : Option String) = true
      ∧ (pyStripS ((none : Option String).getD "")).length > 0) := by
    rintro ⟨h1, -⟩
    exact Bool.noConfusion h1
  unfold generate_mode1_reply_user_prompt
  rw [if_neg hF, if_neg hF0]

set_option maxRecDepth 8000 in
/-- Counterexample for C3 as stated: a whitespace-only personal context
changes the Mode1 prompt, so it does contribute a (whitespace) context
section. -/
theorem C3_counterexample :
    build_mode1_prompt "a" "b" "casual" (some " ") none
      ≠ build_mode1_prompt "a" "b" "casual" none none := by decide

/-- Witness for C3 at the concrete whitespace-only context. -/
theorem C3_witness :
    generate_mode1_reply_user_prompt "m" "u" none (some " ") none
      = generate_mode1_reply_user_prompt "m" "u" none none none :=
  C3_empty_context_contributes_nothing.2.2.2.2 "m" "u" none none " " rfl

/-! ## C1, C8, C9: the dispatcher -/

/-- The image phase contacts at most the vision provider. -/
theorem image_phase_calls (p : Providers) (f : ChatForm) (mode : String) :
    (image_phase p f mode).2 = [] ∨ (image_phase p f mode).2 = [.vision] := by
  rcases hfile : f.file with - | file
  · simp [image_phase, hfile]
  · by_cases hm : mode = "mode1" ∨ mode = "mode3"
    · rcases hct : file.content_type with - | ct
      · simp [image_phase, hfile, hm, hct]
      · by_cases hc : ct = "" ∨ ct ∉ allowed_types
        · simp [image_phase, hfile, hm, hct, hc]
        · simp [image_phase, hfile, hm, hct, hc]
    · simp [image_phase, hfile, hm]

/-- C1 (amended): a request whose selected mode is missing a required field
fails with the 400 validation error before any text-generation provider is
contacted — and, when no image attachment is supplied, before any provider
call at all; when a valid image attachment is supplied, however, the vision
extraction runs before field validation (see the counterexample). -/
theorem C1_validation_before_generation
    (p : Providers) (f : ChatForm) (ic : Option String) (tr : List ProviderCall)
    (him : image_phase p f (pyLower f.mode) = (.ok ic, tr)) :
    ((pyLower f.mode = "mode1" →
      ¬(pyTruthy f.original_message = true ∧ pyTruthy f.response = true) →
      unified_chat p f = (.error ⟨400,
          "Mode1 requires \x27original_message\x27 and \x27response\x27 fields"⟩, tr)
        ∧ ProviderCall.groq ∉ tr ∧ ProviderCall.gemini ∉ tr
        ∧ (f.file = none → tr = []))
    ∧ (pyLower f.mode = "mode3" →
      ¬ pyTruthy f.situation_description = true →
      unified_chat p f = (.error ⟨400,
          "Mode3 requires \x27situation_description\x27 field"⟩, tr)
        ∧ ProviderCall.groq ∉ tr ∧ ProviderCall.gemini ∉ tr
        ∧ (f.file = none → tr = []))) := by
  have htr : tr = [] ∨ tr = [.vision] := by
    have h0 := image_phase_calls p f (pyLower f.mode)
    rw [him] at h0
    exact h0
  have hng : ProviderCall.groq ∉ tr := by
    rcases htr with rfl | rfl <;> decide
  have hnm : ProviderCall.gemini ∉ tr := by
    rcases htr with rfl | rfl <;> decide
  have hfile : f.file = none → tr = [] := by
    intro hf
    have h1 : image_phase p f (pyLower f.mode) = (.ok none, []) := by
      simp [image_phase, hf]
    rw [him] at h1
    exact congrArg Prod.snd h1
  constructor
  · intro hm hv
    refine ⟨?_, hng, hnm, hfile⟩
    have hmo : mode_outcome p f (pyLower f.mode) ic = (.error ⟨400,
        "Mode1 requires \x27original_message\x27 and \x27response\x27 fields"⟩, []) := by
      rw [hm]
      simp [mode_outcome, hv]
    simp [unified_chat, him, hmo]
  · intro hm hv
    refine ⟨?_, hng, hnm, hfile⟩
    have hmo : mode_outcome p f (pyLower f.mode) ic = (.error ⟨400,
        "Mode3 requires \x27situation_description\x27 field"⟩, []) := by
      rw [hm]
      simp [mode_outcome, hv]
    simp [unified_chat, him, hmo]

/-- Counterexample for C1 as stated: a Mode1 request missing its required
field but carrying a valid image attachment still fails with the validation
error, yet the vision provider has already been contacted — the call trace
is not empty. -/
theorem C1_counterexample :
    unified_chat C1prov C1form = (.error ⟨400,
        "Mode1 requires \x27original_message\x27 and \x27response\x27 fields"⟩,
      [.vision]) := by rfl

/-- Witness for C1 at the concrete request missing `original_message`. -/
theorem C1_witness :
    unified_chat C1prov C1form = (.error ⟨400,
        "Mode1 requires \x27original_message\x27 and \x27response\x27 fields"⟩,
      [.vision])
    ∧ ProviderCall.groq ∉ [ProviderCall.vision]
    ∧ ProviderCall.gemini ∉ [ProviderCall.vision]
    ∧ (C1form.file = none → [ProviderCall.vision] = []) :=
  (C1_validation_before_generation C1prov C1form none [.vision] rfl).1 rfl
    (by decide)

/-- C8: vision-extraction failure is demoted to an absent context — a raised
provider exception and an empty result both yield `none`, never an error —
and a request with an attached image still succeeds end to end when the
vision call raises. -/
theorem C8_vision_failure_non_fatal :
    (∀ m, extract_context_from_image (.exn m) = none)
    ∧ extract_context_from_image (.response none) = none
    ∧ extract_context_from_image (.response (some "")) = none
    ∧ unified_chat C8prov C8form
      = (.ok (.obj [("reply".data, .str "hi".data)]), [.vision, .gemini]) :=
  ⟨fun m => rfl, rfl, by simp [extract_context_from_image], rfl⟩

/-- C9 (amended): for Mode1/Mode3 requests carrying an image attachment, a
missing or disallowed MIME type is rejected with a 400 before any provider
call, and an allowed MIME type passes validation and reaches the vision
provider; Mode2 requests, however, ignore the attachment entirely (see the
counterexample). -/
theorem C9_mime_validation
    (p : Providers) (f : ChatForm) (u : PyUploadFile)
    (hf : f.file = some u)
    (hm : pyLower f.mode = "mode1" ∨ pyLower f.mode = "mode3") :
    ((u.content_type = none →
      unified_chat p f = (.error ⟨400,
        "File must be one of: PNG, JPEG, WEBP, HEIC, HEIF. Received: None"⟩, []))
    ∧ (∀ ct, u.content_type = some ct → ct ∉ allowed_types →
      unified_chat p f = (.error ⟨400,
        "File must be one of: PNG, JPEG, WEBP, HEIC, HEIF. Received: " ++ ct⟩, []))
    ∧ (∀ ct, u.content_type = some ct → ct ∈ allowed_types →
      ∃ rest, (unified_chat p f).2 = ProviderCall.vision :: rest)) := by
  refine ⟨?_, ?_, ?_⟩
  · intro hct
    have hip : image_phase p f (pyLower f.mode) = (.error ⟨400,
        "File must be one of: PNG, JPEG, WEBP, HEIC, HEIF. Received: None"⟩, []) := by
      simp [image_phase, hf, hm, hct]
    simp [unified_chat, hip]
  · intro ct hct hnot
    have hip : image_phase p f (pyLower f.mode) = (.error ⟨400,
        "File must be one of: PNG, JPEG, WEBP, HEIC, HEIF. Received: " ++ ct⟩, []) := by
      simp [image_phase, hf, hm, hct, hnot]
    simp [unified_chat, hip]
  · intro ct hct hmem
    have hne : ct ≠ "" := by
      have hmem2 := hmem
      simp only [allowed_types, List.mem_cons, List.not_mem_nil, or_false] at hmem2
      rcases hmem2 with rfl | rfl | rfl | rfl | rfl <;> decide
    have hip : image_phase p f (pyLower f.mode)
        = (.ok (extract_context_from_image p.vision), [.vision]) := by
      simp [image_phase, hf, hm, hct, hmem, hne]
    refine ⟨(mode_outcome p f (pyLower f.mode)
      (extract_context_from_image p.vision)).2, ?_⟩
    simp [unified_chat, hip]

/-- Counterexample for C9 as stated: a Mode2 request carrying an attachment
of the disallowed type `image/gif` is not rejected — it proceeds and the
text-generation provider is contacted. -/
theorem C9_counterexample :
    C9form.file = some ⟨some "image/gif"⟩
    ∧ "image/gif" ∉ allowed_types
    ∧ unified_chat C9prov C9form
      = (.ok (.obj [("reply".data, .str "yo".data)]), [.groq]) :=
  ⟨rfl, by decide, rfl⟩

/-- Witness for C9 at a concrete Mode3 request with a BMP attachment. -/
theorem C9_witness :
    unified_chat C9wprov C9wform = (.error ⟨400,
      "File must be one of: PNG, JPEG, WEBP, HEIC, HEIF. Received: image/bmp"⟩, []) :=
  (C9_mime_validation C9wprov C9wform ⟨some "image/bmp"⟩ rfl (Or.inr rfl)).2.1
    "image/bmp" rfl (by decide)

end Reteq
